import Mathlib

/-!
Shallow embedding of the resumable batch-import pipeline of
`src/src/utils/recoverySystem.js` (classes `RecoverySystem` and
`ImportManager`), together with theorems settling the frozen claims
about it.

Modelling conventions:
* JavaScript arrays become `List`; `arr.slice(a, b)` becomes
  `(l.drop a).take (b - a)`; `arr.slice(a)` becomes `l.drop a`.
* Rejected promises / thrown `Error` values become `Except String`
  results carrying the error message.
* The filesystem is an explicit value: a checkpoint directory is a list
  of file names paired with their contents (or a read/parse failure),
  and pruning acts on a list of (name, mtime) entries.
* Timestamps in checkpoint file names are abstracted away: a saved
  checkpoint is represented by the `Checkpoint` value that
  `saveCheckpoint` serialises, and `results.checkpoints` collects those
  values instead of file name strings.
* External collaborators (the validator, the Sanity transaction, the
  disk write performed by `saveCheckpoint`) are oracles supplied in an
  `ImportEnv`: each batch start index is mapped to the outcome the
  collaborator would produce there.
* `Promise.all` over the per-record validations is determinised to the
  first-in-order failure.
-/

namespace SanityImport

set_option maxRecDepth 8000

/-- Comparison JavaScript's default `Array.prototype.sort` applies to file
names: lexicographic comparison of the underlying character sequences. -/
def fileLe (a b : String) : Prop := a.data ≤ b.data

instance : DecidableRel fileLe := fun a b => inferInstanceAs (Decidable (a.data ≤ b.data))

instance : IsTotal String fileLe := ⟨fun a b => le_total a.data b.data⟩

instance : IsTrans String fileLe := ⟨fun _ _ _ h1 h2 => le_trans h1 h2⟩

/-- Message of the error thrown by `retryOperation` when all attempts fail:
`Operation failed after ${this.maxRetries} attempts: ${lastError.message}`.
The `none` case (`maxRetries = 0`, where `lastError` is still `undefined`)
is unreachable for the configured `maxRetries = 3`. -/
def retryExhaustedMsg (maxRetries : Nat) (lastErr : Option String) : String :=
  "Operation failed after " ++ toString maxRetries ++ " attempts: " ++ lastErr.getD "undefined"

/-- Observable outcome of one `retryOperation` call: the value returned or
error thrown, how many times the wrapped operation was invoked, and the
sequence of `setTimeout` delays awaited between attempts. -/
structure RetryOutcome (α : Type) where
  result : Except String α
  invocations : Nat
  delays : List Nat

/-- Loop of `RecoverySystem.retryOperation`: `for (attempt = 1; attempt <=
maxRetries; attempt++)`.  `op` gives the operation's outcome on each
invocation, indexed by attempt number; `fuel` counts the remaining loop
iterations, so the loop body runs while `fuel > 0`.  After a failed attempt
the delay `retryDelay * attempt` is awaited only when `attempt < maxRetries`. -/
def retryAux (maxRetries retryDelay : Nat) (op : Nat → Except String α) :
    Nat → Nat → Option String → RetryOutcome α
  | 0, _, lastErr => ⟨.error (retryExhaustedMsg maxRetries lastErr), 0, []⟩
  | fuel + 1, attempt, _ =>
    match op attempt with
    | .ok v => ⟨.ok v, 1, []⟩
    | .error e =>
      let rest := retryAux maxRetries retryDelay op fuel (attempt + 1) (some e)
      ⟨rest.result, rest.invocations + 1,
        if attempt < maxRetries then retryDelay * attempt :: rest.delays else rest.delays⟩

/-- `RecoverySystem.retryOperation(operation, context)`: attempts start at 1
and at most `maxRetries` loop iterations run.  In the source `maxRetries = 3`
and `retryDelay = 1000` are fixed in the constructor; they are parameters
here. -/
def retryOperation (maxRetries retryDelay : Nat) (op : Nat → Except String α) :
    RetryOutcome α :=
  retryAux maxRetries retryDelay op maxRetries 1 none

/-- The checkpoint object serialised by `RecoverySystem.saveCheckpoint`
(the `timestamp` field is abstracted away). -/
structure Checkpoint (α : Type) where
  type : String
  progress : Nat
  remainingData : List α
  processedCount : Nat
  totalCount : Nat
deriving DecidableEq

/-- Body of `RecoverySystem.saveCheckpoint(type, data, progress)`: the
checkpoint value written to disk, with `remainingData = data.slice(progress)`,
`processedCount = progress` and `totalCount = data.length`. -/
def saveCheckpointData (type : String) (data : List α) (progress : Nat) : Checkpoint α :=
  { type := type
    progress := progress
    remainingData := data.drop progress
    processedCount := progress
    totalCount := data.length }

/-- File name prefix `checkpoint_${type}_` used by `saveCheckpoint`,
`loadLatestCheckpoint` and `cleanOldCheckpoints`. -/
def checkpointPrefix (type : String) : String := "checkpoint_" ++ type ++ "_"

/-- `s.startsWith(pre)` of JavaScript: the character sequence of `pre` is a
prefix of that of `s`. -/
def strStartsWith (s pre : String) : Bool := pre.data.isPrefixOf s.data

/-- `files.filter(file => file.startsWith(`checkpoint_${type}_`))`. -/
def matchingFiles (type : String) (files : List String) : List String :=
  files.filter (fun f => strStartsWith f (checkpointPrefix type))

/-- `checkpointFiles.sort().reverse()[0]` of `loadLatestCheckpoint`:
the first element, if any, of the reversed ascending sort of the matching
file names. -/
def latestCheckpointFile (type : String) (files : List String) : Option String :=
  (((matchingFiles type files).insertionSort fileLe).reverse).head?

/-- A checkpoint directory as `loadLatestCheckpoint` sees it: file names
paired with the result of reading-and-parsing the file (`Except.error` for a
corrupt or unreadable file). -/
abbrev CheckpointDir (α : Type) := List (String × Except String (Checkpoint α))

/-- `RecoverySystem.loadLatestCheckpoint(type)`: list the directory, keep the
`checkpoint_<type>_` files, sort, reverse, take the first; return `none` when
there is no match, otherwise read and parse that file, rethrowing any
read/parse failure. -/
def loadLatestCheckpoint (type : String) (dir : CheckpointDir α) :
    Except String (Option (Checkpoint α)) :=
  match latestCheckpointFile type (dir.map Prod.fst) with
  | none => .ok none
  | some latest =>
    match dir.lookup latest with
    | some (.ok cp) => .ok (some cp)
    | some (.error e) => .error e
    | none => .error "ENOENT"

/-- Message of the error thrown by `RecoverySystem.parseMaxAge` on input not
matching `/^(\d+)([dw])$/`. -/
def maxAgeErrorMsg : String := "Invalid maxAge format. Use format: 7d or 1w"

/-- Decimal value of a digit string, as `parseInt` computes it on an
all-digit input. -/
def digitsToNat (ds : List Char) : Nat :=
  ds.foldl (fun acc c => acc * 10 + (c.toNat - 48)) 0

/-- `RecoverySystem.parseMaxAge(maxAge)`: the input must be one or more
ASCII digits followed by `d` (days) or `w` (weeks); the result is the span
in milliseconds.  Any other shape throws the format error. -/
def parseMaxAge (maxAge : String) : Except String Nat :=
  let cs := maxAge.data
  match cs.getLast? with
  | none => .error maxAgeErrorMsg
  | some u =>
    let digits := cs.dropLast
    if digits ≠ [] ∧ digits.all Char.isDigit ∧ (u = 'd' ∨ u = 'w') then
      .ok (digitsToNat digits * (if u = 'd' then 24 * 60 * 60 * 1000 else 7 * 24 * 60 * 60 * 1000))
    else .error maxAgeErrorMsg

/-- A directory entry as `cleanOldCheckpoints` sees it: a file name and its
`mtime` in milliseconds since the epoch. -/
structure FsFile where
  name : String
  mtimeMs : Nat
deriving DecidableEq

/-- Whether `cleanOldCheckpoints` deletes a file: it matches the
`checkpoint_<type>_` prefix and `now - stats.mtime.getTime() > maxAgeMs`. -/
def isStaleCheckpoint (type : String) (now maxAgeMs : Nat) (f : FsFile) : Bool :=
  strStartsWith f.name (checkpointPrefix type) && decide (maxAgeMs < now - f.mtimeMs)

/-- `RecoverySystem.cleanOldCheckpoints(type, maxAge)`: the directory after
the call.  `parseMaxAge` runs before any deletion, and the surrounding
`try/catch` only logs, so on a malformed `maxAge` the function returns with
the directory untouched; otherwise every stale matching file is removed. -/
def cleanOldCheckpoints (type maxAge : String) (now : Nat) (dir : List FsFile) :
    List FsFile :=
  match parseMaxAge maxAge with
  | .error _ => dir
  | .ok maxAgeMs => dir.filter (fun f => ! isStaleCheckpoint type now maxAgeMs f)

/-- Configuration visible to `ImportManager.import`: `config.import.batchSize`,
`this.checkpointInterval` (50 in the source), the retry parameters of
`RecoverySystem`, and `options.continueOnError`. -/
structure ImportConfig where
  batchSize : Nat
  checkpointInterval : Nat
  maxRetries : Nat
  retryDelay : Nat
  continueOnError : Bool

/-- `batch: i / importConfig.batchSize`, the batch label stored in an error
entry (an exact rational; JavaScript computes the floating-point quotient). -/
def jsBatchIndex (i B : Nat) : ℚ := (i : ℚ) / (B : ℚ)

/-- An entry of `results.errors`: `{ batch: i / batchSize, error: message,
items: batch }`. -/
structure ImportErrorEntry (α : Type) where
  batch : ℚ
  errMsg : String
  items : List α
deriving DecidableEq

/-- The mutable `results` object of `ImportManager.import`, extended with
`committed`: the trace of documents staged into transactions whose commit
succeeded (observable calls on the transaction sink, not a field of the
source object). -/
structure ImportState (α : Type) where
  success : Nat
  failed : Nat
  errors : List (ImportErrorEntry α)
  checkpoints : List (Checkpoint α)
  committed : List α
deriving DecidableEq

/-- Oracles for the external collaborators of one run: the outcome of
`importer.validate` per record, the outcome of the transaction commit for
the batch starting at index `i` on a given attempt number, and the outcome
of the checkpoint file write for the save triggered at batch start `i`
(`some msg` = the write throws `msg`). -/
structure ImportEnv (α : Type) where
  validate : α → Except String Unit
  commitAttempt : Nat → Nat → Except String Unit
  saveFail : Nat → Option String

/-- `await Promise.all(batch.map(item => importer.validate(item)))`,
determinised to the first-in-order rejection. -/
def validateBatch (env : ImportEnv α) : List α → Except String Unit
  | [] => .ok ()
  | x :: xs =>
    match env.validate x with
    | .error e => .error e
    | .ok _ => validateBatch env xs

/-- The retry-wrapped transaction commit for the batch starting at `i`:
`recoverySystem.retryOperation(async () => { ... transaction.commit() }, ...)`. -/
def commitWithRetry (cfg : ImportConfig) (env : ImportEnv α) (i : Nat) :
    Except String Unit :=
  (retryOperation cfg.maxRetries cfg.retryDelay (env.commitAttempt i)).result

/-- The error message, if any, with which the validate-then-commit phase of
the batch starting at `i` fails (a `ValidationError` message or the
retry-exhausted commit message). -/
def batchFailMsg (cfg : ImportConfig) (env : ImportEnv α) (data : List α) (i : Nat) :
    Option String :=
  match validateBatch env ((data.drop i).take cfg.batchSize) with
  | .error e => some e
  | .ok _ =>
    match commitWithRetry cfg env i with
    | .error e => some e
    | .ok _ => none

/-- The `catch` block of the batch loop: `results.failed += batch.length`
and one entry pushed onto `results.errors`. -/
def recordFailure (cfg : ImportConfig) (i : Nat) (batch : List α) (e : String)
    (st : ImportState α) : ImportState α :=
  { st with
    failed := st.failed + batch.length
    errors := st.errors ++ [⟨jsBatchIndex i cfg.batchSize, e, batch⟩] }

/-- One iteration of the batch loop of `ImportManager.import`, for the batch
starting at index `i` of `data`.  Mirrors the source order: validate, commit
with retry, `results.success += batch.length`, then — when `i > 0 && i %
checkpointInterval === 0` — save a checkpoint and push it onto
`results.checkpoints`.  Any error thrown up to that point reaches the
`catch` block (`recordFailure`), after which the error is rethrown when
`options.continueOnError` is false.  Note that a failed checkpoint save
reaches the same `catch` block with `results.success` already incremented. -/
def processBatch (cfg : ImportConfig) (env : ImportEnv α) (type : String)
    (data : List α) (i : Nat) (st : ImportState α) :
    Except (String × ImportState α) (ImportState α) :=
  let batch := (data.drop i).take cfg.batchSize
  let afterFail := fun (e : String) (st' : ImportState α) =>
    let stF := recordFailure cfg i batch e st'
    if cfg.continueOnError then Except.ok stF else Except.error (e, stF)
  match validateBatch env batch with
  | .error e => afterFail e st
  | .ok _ =>
    match commitWithRetry cfg env i with
    | .error e => afterFail e st
    | .ok _ =>
      let st1 := { st with
        success := st.success + batch.length
        committed := st.committed ++ batch }
      if 0 < i ∧ i % cfg.checkpointInterval = 0 then
        match env.saveFail i with
        | some e => afterFail e st1
        | none =>
          Except.ok { st1 with
            checkpoints := st1.checkpoints ++ [saveCheckpointData type data (i + batch.length)] }
      else Except.ok st1

/-- The batch loop of `ImportManager.import` over the listed batch start
indices.  A propagated error aborts the loop; the state accumulated so far
is carried in the error. -/
def runBatches (cfg : ImportConfig) (env : ImportEnv α) (type : String)
    (data : List α) : List Nat → ImportState α →
    Except (String × ImportState α) (ImportState α)
  | [], st => .ok st
  | i :: rest, st =>
    match processBatch cfg env type data i st with
    | .ok st' => runBatches cfg env type data rest st'
    | .error es => .error es

/-- Start indices visited by `for (let i = startIndex; i < len; i +=
batchSize)`. -/
def batchStarts (startIndex len B : Nat) : List Nat :=
  (List.range ((len - startIndex + B - 1) / B)).map (fun k => startIndex + k * B)

/-- The fresh `results` object. -/
def initState : ImportState α := ⟨0, 0, [], [], []⟩

/-- `ImportManager.import(inputPath, type, options)`.  When `options.resume`
is set and a checkpoint was loaded, the source sets `transformedData =
checkpoint.remainingData` and `startIndex = checkpoint.processedCount`;
otherwise `transformedData` is the full transformed sequence and
`startIndex = 0`.  The batch loop then runs over `transformedData` from
`startIndex`.  (`cleanOldCheckpoints` at the end does not affect the
returned results and is modelled separately.) -/
def importRun (cfg : ImportConfig) (env : ImportEnv α) (type : String)
    (fullData : List α) (resume : Bool) (loaded : Option (Checkpoint α)) :
    Except (String × ImportState α) (ImportState α) :=
  let p : List α × Nat :=
    match resume, loaded with
    | true, some cp => (cp.remainingData, cp.processedCount)
    | _, _ => (fullData, 0)
  runBatches cfg env type p.1 (batchStarts p.2 p.1.length cfg.batchSize) initState

/-- Source configuration: batch size 50, checkpoint interval 50 (the
source's fixed value), `maxRetries = 3`, `retryDelay = 1000`,
`continueOnError` false. -/
def cfg50 : ImportConfig := ⟨50, 50, 3, 1000, false⟩

/-- Same configuration with `continueOnError` true. -/
def cfgCont : ImportConfig := ⟨50, 50, 3, 1000, true⟩

/-- Environment in which every collaborator call succeeds. -/
def envOk : ImportEnv Nat := ⟨fun _ => .ok (), fun _ _ => .ok (), fun _ => none⟩

/-- Environment in which everything succeeds except the checkpoint file
write for the save triggered at batch start 50, which throws `disk full`. -/
def envSaveFail : ImportEnv Nat :=
  ⟨fun _ => .ok (), fun _ _ => .ok (), fun i => if i = 50 then some "disk full" else none⟩

/-- Environment in which validating the record `0` fails. -/
def envValFail : ImportEnv Nat :=
  ⟨fun n => if n = 0 then .error "bad record" else .ok (), fun _ _ => .ok (), fun _ => none⟩

/-- The original 120-record sequence of the resume scenario, with each
record identified by its index. -/
def origRecords : List Nat := List.range 120

/-- The checkpoint of the resume scenario: `processedCount = 50`,
`totalCount = 120`, `remainingData` the 70-record suffix of the original
sequence. -/
def resumeCp : Checkpoint Nat := ⟨"category", 50, origRecords.drop 50, 50, 120⟩

/-- Operation that fails on its first two invocations and succeeds on the
third. -/
def opFlaky : Nat → Except String Nat :=
  fun j => if j ≤ 2 then .error ("fail " ++ toString j) else .ok 42

/-- Operation that fails on every invocation. -/
def opBoom : Nat → Except String Nat := fun _ => .error "boom"

/-- Contents of the newest `category` checkpoint file of the example
directory. -/
def cpLatest : Checkpoint Nat := ⟨"category", 100, [100, 101], 100, 102⟩

/-- Example checkpoint directory: two `category` checkpoints, a corrupt
`listing` checkpoint, and an unrelated file. -/
def exCheckpointDir : CheckpointDir Nat :=
  [("checkpoint_category_2024-01-01", .ok ⟨"category", 50, [1], 50, 51⟩),
   ("checkpoint_listing_2026-01-01", .error "corrupt"),
   ("checkpoint_category_2025-02-02", .ok cpLatest),
   ("readme.txt", .error "not json")]

/-- Current time used by the pruning examples (milliseconds). -/
def exNow : Nat := 1000000000000

/-- Example directory for pruning: a stale `category` checkpoint, a stale
`listing` checkpoint, a fresh `category` checkpoint, and an unrelated
file. -/
def exPruneDir : List FsFile :=
  [⟨"checkpoint_category_2020", 0⟩,
   ⟨"checkpoint_listing_2020", 0⟩,
   ⟨"checkpoint_category_2025", 999999999900⟩,
   ⟨"notes.txt", 0⟩]

/-! Helper lemmas about the retry loop. -/

/-- Out of fuel: the loop exits and the retry-exhausted error is thrown. -/
theorem retryAux_zero {α : Type} (maxR d : Nat) (op : Nat → Except String α)
    (attempt : Nat) (lastErr : Option String) :
    retryAux maxR d op 0 attempt lastErr =
      ⟨Except.error (retryExhaustedMsg maxR lastErr), 0, []⟩ := rfl

/-- A successful attempt returns at once with a single invocation. -/
theorem retryAux_succ_ok {α : Type} (maxR d : Nat) (op : Nat → Except String α)
    (fuel attempt : Nat) (lastErr : Option String) (v : α)
    (h : op attempt = Except.ok v) :
    retryAux maxR d op (fuel + 1) attempt lastErr = ⟨Except.ok v, 1, []⟩ := by
  unfold retryAux
  rw [h]

/-- A failed attempt recurses, adding one invocation and, when more attempts
remain, the delay `d * attempt`. -/
theorem retryAux_succ_err {α : Type} (maxR d : Nat) (op : Nat → Except String α)
    (fuel attempt : Nat) (lastErr : Option String) (e : String)
    (h : op attempt = Except.error e) :
    retryAux maxR d op (fuel + 1) attempt lastErr =
      ⟨(retryAux maxR d op fuel (attempt + 1) (some e)).result,
       (retryAux maxR d op fuel (attempt + 1) (some e)).invocations + 1,
       if attempt < maxR then
         d * attempt :: (retryAux maxR d op fuel (attempt + 1) (some e)).delays
       else (retryAux maxR d op fuel (attempt + 1) (some e)).delays⟩ := by
  conv_lhs => rw [retryAux]
  rw [h]

/-- Splitting off the first of `k + 1` linear-backoff delays. -/
theorem delays_cons (d attempt k : Nat) :
    (List.range (k + 1)).map (fun j => d * (attempt + j)) =
      d * attempt :: (List.range k).map (fun j => d * (attempt + 1 + j)) := by
  rw [List.range_succ_eq_map]
  simp only [List.map_cons, List.map_map, Nat.add_zero]
  refine congrArg _ (List.map_congr_left fun j _ => ?_)
  simp only [Function.comp_apply, Nat.succ_eq_add_one]
  ring_nf

/-- Running the retry loop from `attempt` with `k` failures before a success
at attempt `attempt + k` within bounds yields that success, `k + 1`
invocations, and the delays of the `k` failed attempts. -/
theorem retryAux_ok {α : Type} (maxR d : Nat) (op : Nat → Except String α) (v : α) :
    ∀ (k fuel attempt : Nat) (lastErr : Option String),
      k < fuel →
      (∀ j, j < k → ∃ e, op (attempt + j) = Except.error e) →
      op (attempt + k) = Except.ok v →
      attempt + k ≤ maxR →
      retryAux maxR d op fuel attempt lastErr =
        ⟨Except.ok v, k + 1, (List.range k).map (fun j => d * (attempt + j))⟩ := by
  intro k
  induction k with
  | zero =>
    intro fuel attempt lastErr hfuel _ hok _
    match fuel, hfuel with
    | fuel + 1, _ =>
      rw [Nat.add_zero] at hok
      rw [retryAux_succ_ok maxR d op fuel attempt lastErr v hok]
      rfl
  | succ k ih =>
    intro fuel attempt lastErr hfuel hfail hok hle
    match fuel, hfuel with
    | fuel + 1, _ =>
      obtain ⟨e, he⟩ := hfail 0 (Nat.succ_pos k)
      rw [Nat.add_zero] at he
      have hrest := ih fuel (attempt + 1) (some e) (by omega)
        (fun j hj => by
          obtain ⟨e', he'⟩ := hfail (j + 1) (by omega)
          exact ⟨e', by rw [← he']; ring_nf⟩)
        (by rw [← hok]; ring_nf)
        (by omega)
      have hlt : attempt < maxR := by omega
      rw [retryAux_succ_err maxR d op fuel attempt lastErr e he, hrest, if_pos hlt,
        delays_cons]

/-- Running the retry loop from `attempt` when every attempt through
`maxR` fails exhausts the fuel, throwing the wrapped message of the last
error with one invocation per remaining attempt and a delay after each
attempt but the last. -/
theorem retryAux_allFail {α : Type} (maxR d : Nat) (op : Nat → Except String α)
    (em : Nat → String) :
    ∀ (fuel attempt : Nat) (lastErr : Option String),
      attempt + fuel = maxR + 1 →
      1 ≤ fuel →
      (∀ j, attempt ≤ j → j ≤ maxR → op j = Except.error (em j)) →
      retryAux maxR d op fuel attempt lastErr =
        ⟨Except.error (retryExhaustedMsg maxR (some (em maxR))), fuel,
          (List.range (fuel - 1)).map (fun j => d * (attempt + j))⟩ := by
  intro fuel
  induction fuel with
  | zero => intro attempt lastErr _ h1; omega
  | succ fuel ih =>
    intro attempt lastErr htot _ hfail
    have hattempt : op attempt = Except.error (em attempt) :=
      hfail attempt le_rfl (by omega)
    match fuel, htot with
    | 0, htot =>
      have ha : attempt = maxR := by omega
      rw [retryAux_succ_err maxR d op 0 attempt lastErr (em attempt) hattempt,
        retryAux_zero, if_neg (by omega : ¬ attempt < maxR), ha]
      rfl
    | fuel + 1, htot =>
      have hrest := ih (attempt + 1) (some (em attempt)) (by omega) (by omega)
        (fun j hj1 hj2 => hfail j (by omega) hj2)
      have hlt : attempt < maxR := by omega
      simp only [Nat.add_sub_cancel] at hrest ⊢
      rw [retryAux_succ_err maxR d op (fuel + 1) attempt lastErr (em attempt) hattempt,
        hrest, if_pos hlt, delays_cons]

/-- Claim C5: for a zero-argument fallible operation, `retryOperation`
returns the success value after exactly `k + 1` invocations when the
operation fails `k < maxAttempts` times and then succeeds; when every
attempt fails it makes exactly `maxAttempts` invocations and throws an error
wrapping the last error's message and the attempt count; between consecutive
attempts it waits `baseDelay * attemptNumber` (attempt numbers from 1), with
no wait after the final failure. -/
theorem retryOperation_spec {α : Type} :
    (∀ (maxR d k : Nat) (op : Nat → Except String α) (v : α),
      k + 1 ≤ maxR →
      (∀ j, j < k → ∃ e, op (1 + j) = Except.error e) →
      op (1 + k) = Except.ok v →
      retryOperation maxR d op =
        ⟨Except.ok v, k + 1, (List.range k).map (fun j => d * (1 + j))⟩)
    ∧ (∀ (maxR d : Nat) (op : Nat → Except String α) (em : Nat → String),
      1 ≤ maxR →
      (∀ j, 1 ≤ j → j ≤ maxR → op j = Except.error (em j)) →
      retryOperation maxR d op =
        ⟨Except.error (retryExhaustedMsg maxR (some (em maxR))), maxR,
          (List.range (maxR - 1)).map (fun j => d * (1 + j))⟩) := by
  constructor
  · intro maxR d k op v hk hfail hok
    exact retryAux_ok maxR d op v k maxR 1 none (by omega) hfail hok (by omega)
  · intro maxR d op em h1 hfail
    exact retryAux_allFail maxR d op em maxR 1 none (by omega) h1 hfail

/-- Witness for C5: with `maxRetries = 3` and `baseDelay = 1000`, an
operation failing twice then succeeding returns `42` after 3 invocations and
delays `[1000, 2000]`; an always-failing operation throws the wrapped
message after 3 invocations and the same two delays. -/
theorem retryOperation_spec_witness :
    retryOperation 3 1000 opFlaky = ⟨Except.ok 42, 3, [1000, 2000]⟩
    ∧ retryOperation 3 1000 opBoom =
        ⟨Except.error (retryExhaustedMsg 3 (some "boom")), 3, [1000, 2000]⟩ :=
  ⟨retryOperation_spec.1 3 1000 2 opFlaky 42 (by decide)
      (by intro j hj; interval_cases j <;> exact ⟨_, rfl⟩) rfl,
   retryOperation_spec.2 3 1000 opBoom (fun _ => "boom") (by decide) (fun _ _ _ => rfl)⟩

/-- Claim C7: when the batch starting at `i` fails (validation error or
retry-exhausted commit error, captured by `batchFailMsg`), the loop
increments `failed` by exactly that batch's length and appends exactly one
error entry carrying the batch index `i / batchSize` and the error message
(`recordFailure`, which leaves `success`, `checkpoints` and the committed
trace untouched); then with `continueOnError` false the error propagates
immediately and no further batch is processed, and with it true processing
continues with the remaining batches. -/
theorem runBatches_batch_failure_policy {α : Type} (cfg : ImportConfig)
    (env : ImportEnv α) (type : String) (data : List α) (i : Nat)
    (rest : List Nat) (st : ImportState α) (e : String)
    (h : batchFailMsg cfg env data i = some e) :
    runBatches cfg env type data (i :: rest) st =
      (if cfg.continueOnError then
        runBatches cfg env type data rest
          (recordFailure cfg i ((data.drop i).take cfg.batchSize) e st)
      else
        Except.error (e, recordFailure cfg i ((data.drop i).take cfg.batchSize) e st)) := by
  unfold batchFailMsg at h
  cases hv : validateBatch env ((data.drop i).take cfg.batchSize) with
  | error e' =>
    rw [hv] at h
    obtain rfl : e' = e := Option.some.inj h
    simp only [runBatches, processBatch, hv]
    cases hc : cfg.continueOnError <;> simp
  | ok u =>
    rw [hv] at h
    cases hcm : commitWithRetry cfg env i with
    | ok _ =>
      rw [hcm] at h
      simp at h
    | error e' =>
      rw [hcm] at h
      obtain rfl : e' = e := Option.some.inj h
      simp only [runBatches, processBatch, hv, hcm]
      cases hc : cfg.continueOnError <;> simp

/-- Witness for C7: with `continueOnError = false`, a two-record batch whose
first record fails validation makes the run abort with `failed = 2` and one
error entry, before any later batch. -/
theorem runBatches_batch_failure_policy_witness :
    runBatches cfg50 envValFail "category" [0, 1] [0] initState =
      (if cfg50.continueOnError then
        runBatches cfg50 envValFail "category" [0, 1] []
          (recordFailure cfg50 0 ((([0, 1] : List Nat).drop 0).take cfg50.batchSize)
            "bad record" initState)
      else
        Except.error ("bad record",
          recordFailure cfg50 0 ((([0, 1] : List Nat).drop 0).take cfg50.batchSize)
            "bad record" initState)) :=
  runBatches_batch_failure_policy cfg50 envValFail "category" [0, 1] 0 [] initState
    "bad record" rfl

/-- Every element of an ascending sorted list is at most its last element. -/
theorem le_of_sorted_getLast {l : List String} (hs : l.Sorted fileLe) {x : String}
    (hx : l.getLast? = some x) : ∀ y ∈ l, fileLe y x := by
  induction l with
  | nil => cases hx
  | cons a t ih =>
    cases t with
    | nil =>
      simp only [List.getLast?_singleton, Option.some.injEq] at hx
      subst hx
      intro y hy
      simp only [List.mem_singleton] at hy
      subst hy
      exact le_refl y.data
    | cons b t' =>
      rw [List.getLast?_cons_cons] at hx
      rw [List.sorted_cons] at hs
      intro y hy
      rcases List.mem_cons.mp hy with rfl | hy'
      · have hxmem : x ∈ b :: t' := by
          obtain ⟨hne, hxeq⟩ := List.mem_getLast?_eq_getLast hx
          exact hxeq ▸ List.getLast_mem hne
        exact hs.1 x hxmem
      · exact ih hs.2 hx y hy'

/-- Claim C8: `loadLatestCheckpoint(type)` returns the empty result exactly
when no `checkpoint_<type>_` file exists; otherwise it selects the
lexicographically last matching file name, returning its parsed checkpoint
when readable and failing with the read/parse error when the latest file is
corrupt or unreadable. -/
theorem loadLatestCheckpoint_spec {α : Type} (type : String) (dir : CheckpointDir α) :
    (latestCheckpointFile type (dir.map Prod.fst) = none ↔
      matchingFiles type (dir.map Prod.fst) = [])
    ∧ (matchingFiles type (dir.map Prod.fst) = [] →
        loadLatestCheckpoint type dir = Except.ok none)
    ∧ (∀ latest, latestCheckpointFile type (dir.map Prod.fst) = some latest →
        (latest ∈ matchingFiles type (dir.map Prod.fst)
         ∧ (∀ f ∈ matchingFiles type (dir.map Prod.fst), fileLe f latest)
         ∧ (∀ cp, dir.lookup latest = some (Except.ok cp) →
             loadLatestCheckpoint type dir = Except.ok (some cp))
         ∧ (∀ e, dir.lookup latest = some (Except.error e) →
             loadLatestCheckpoint type dir = Except.error e))) := by
  have hnone_of_empty : matchingFiles type (dir.map Prod.fst) = [] →
      latestCheckpointFile type (dir.map Prod.fst) = none := by
    intro h
    unfold latestCheckpointFile
    rw [h]
    rfl
  refine ⟨⟨?_, hnone_of_empty⟩, ?_, ?_⟩
  · intro h
    unfold latestCheckpointFile at h
    rw [List.head?_reverse, List.getLast?_eq_none_iff] at h
    have hperm := List.perm_insertionSort fileLe (matchingFiles type (dir.map Prod.fst))
    rw [h] at hperm
    exact hperm.nil_eq.symm
  · intro h
    unfold loadLatestCheckpoint
    rw [hnone_of_empty h]
  · intro latest h
    have hsorted := List.sorted_insertionSort fileLe (matchingFiles type (dir.map Prod.fst))
    have hget : (List.insertionSort fileLe (matchingFiles type (dir.map Prod.fst))).getLast?
        = some latest := by
      unfold latestCheckpointFile at h
      rwa [List.head?_reverse] at h
    have hmem_sorted :
        latest ∈ List.insertionSort fileLe (matchingFiles type (dir.map Prod.fst)) := by
      obtain ⟨hne, hxeq⟩ := List.mem_getLast?_eq_getLast hget
      exact hxeq ▸ List.getLast_mem hne
    have hmem : latest ∈ matchingFiles type (dir.map Prod.fst) :=
      (List.mem_insertionSort fileLe).mp hmem_sorted
    refine ⟨hmem, ?_, ?_, ?_⟩
    · intro f hf
      exact le_of_sorted_getLast hsorted hget f ((List.mem_insertionSort fileLe).mpr hf)
    · intro cp hcp
      simp only [loadLatestCheckpoint, h, hcp]
    · intro e he
      simp only [loadLatestCheckpoint, h, he]

/-- Witness for C8: in the example directory the newest `category`
checkpoint is returned, and the older `category` file name compares below
the chosen one. -/
theorem loadLatestCheckpoint_spec_witness :
    loadLatestCheckpoint "category" exCheckpointDir = Except.ok (some cpLatest)
    ∧ fileLe "checkpoint_category_2024-01-01" "checkpoint_category_2025-02-02" :=
  ⟨((loadLatestCheckpoint_spec "category" exCheckpointDir).2.2
      "checkpoint_category_2025-02-02" (by decide)).2.2.1 cpLatest rfl,
   ((loadLatestCheckpoint_spec "category" exCheckpointDir).2.2
      "checkpoint_category_2025-02-02" (by decide)).2.1
      "checkpoint_category_2024-01-01" (by decide)⟩

/-- A file survives the pruning filter exactly when it is not a stale
checkpoint of the pruned type. -/
theorem not_stale_iff (type : String) (now maxAgeMs : Nat) (f : FsFile) :
    (! isStaleCheckpoint type now maxAgeMs f) = true ↔
      ¬(strStartsWith f.name (checkpointPrefix type) = true ∧ maxAgeMs < now - f.mtimeMs) := by
  cases hsw : strStartsWith f.name (checkpointPrefix type) <;>
    simp [isStaleCheckpoint, hsw]

/-- Counterexample for C9: on the malformed duration `7 days`,
`parseMaxAge` throws the format error, yet `cleanOldCheckpoints` completes
normally and returns the directory unchanged — the configuration error is
swallowed by its `try/catch`, not propagated to the caller, even though the
directory holds a checkpoint old enough that a correct `7d` pruning would
have removed it. -/
theorem cleanOldCheckpoints_swallows_config_error :
    parseMaxAge "7 days" = Except.error maxAgeErrorMsg
    ∧ cleanOldCheckpoints "category" "7 days" exNow exPruneDir = exPruneDir
    ∧ isStaleCheckpoint "category" exNow 604800000 ⟨"checkpoint_category_2020", 0⟩ = true :=
  ⟨rfl, rfl, by decide⟩

/-- Claim C9 (amended): a malformed `maxAge` makes `parseMaxAge` throw, but
`cleanOldCheckpoints` catches and logs every error, so the call returns
normally with no file deleted and no error reaching the caller. -/
theorem cleanOldCheckpoints_malformed_noop (type maxAge : String) (now : Nat)
    (dir : List FsFile) (m : String) (h : parseMaxAge maxAge = Except.error m) :
    cleanOldCheckpoints type maxAge now dir = dir := by
  unfold cleanOldCheckpoints
  rw [h]

/-- Witness for C9: pruning with the malformed duration `1 week` leaves the
example directory untouched. -/
theorem cleanOldCheckpoints_malformed_noop_witness :
    cleanOldCheckpoints "category" "1 week" exNow exPruneDir = exPruneDir :=
  cleanOldCheckpoints_malformed_noop "category" "1 week" exNow exPruneDir
    maxAgeErrorMsg rfl

/-- Claim C10: when `maxAge` parses, the only files `cleanOldCheckpoints`
removes are those whose name starts with `checkpoint_<type>_` and whose age
exceeds the parsed maximum; every other file — other types, fresh
checkpoints, unrelated files — remains in the directory. -/
theorem cleanOldCheckpoints_frame (type maxAge : String) (now : Nat)
    (dir : List FsFile) (maxAgeMs : Nat) (h : parseMaxAge maxAge = Except.ok maxAgeMs) :
    (∀ f ∈ dir, f ∉ cleanOldCheckpoints type maxAge now dir →
      (strStartsWith f.name (checkpointPrefix type) = true ∧ maxAgeMs < now - f.mtimeMs))
    ∧ (∀ f ∈ dir, ¬(strStartsWith f.name (checkpointPrefix type) = true
          ∧ maxAgeMs < now - f.mtimeMs) →
        f ∈ cleanOldCheckpoints type maxAge now dir) := by
  unfold cleanOldCheckpoints
  rw [h]
  constructor
  · intro f hf hnot
    by_contra hcon
    exact hnot (List.mem_filter.mpr ⟨hf, (not_stale_iff type now maxAgeMs f).mpr hcon⟩)
  · intro f hf hok
    exact List.mem_filter.mpr ⟨hf, (not_stale_iff type now maxAgeMs f).mpr hok⟩

/-- Witness for C10: pruning `category` checkpoints older than `7d` removes
the stale `category` checkpoint (which indeed matches and is over-age) while
the unrelated `notes.txt` survives. -/
theorem cleanOldCheckpoints_frame_witness :
    (strStartsWith (⟨"checkpoint_category_2020", 0⟩ : FsFile).name
        (checkpointPrefix "category") = true
      ∧ 604800000 < exNow - (⟨"checkpoint_category_2020", 0⟩ : FsFile).mtimeMs)
    ∧ (⟨"notes.txt", 0⟩ : FsFile) ∈ cleanOldCheckpoints "category" "7d" exNow exPruneDir :=
  ⟨(cleanOldCheckpoints_frame "category" "7d" exNow exPruneDir 604800000 rfl).1
      ⟨"checkpoint_category_2020", 0⟩ (by decide) (by decide),
   (cleanOldCheckpoints_frame "category" "7d" exNow exPruneDir 604800000 rfl).2
      ⟨"notes.txt", 0⟩ (by decide) (by decide)⟩

/-- Claim C1 (the code at the claimed behaviour's failing input): resuming
with a checkpoint reporting `processedCount = 50`, `totalCount = 120` and a
70-record `remainingData`, the import processes and commits only 20 records
— the last 20 of the original sequence — instead of the 70 remaining ones,
because the loop indexes the already-reduced `remainingData` from
`startIndex = 50`, silently skipping original records 50–99. -/
theorem resume_processes_wrong_slice :
    importRun cfg50 envOk "category" origRecords true (some resumeCp) =
      Except.ok ⟨20, 0, [], [⟨"category", 70, [], 70, 70⟩], List.range' 100 20⟩
    ∧ resumeCp.remainingData.length = 70 ∧ (20 : Nat) ≠ 70 :=
  ⟨rfl, by decide, by decide⟩

/-- Claim C2 (the code at the claimed behaviour's failing input): during the
resumed run the checkpoint save receives the already-reduced 70-record
slice, so the persisted checkpoint has `totalCount = 70` and empty
`remainingData`, whereas a save receiving the untouched original sequence
would have recorded `totalCount = 120` with the non-empty original suffix
from index 70. -/
theorem resume_checkpoint_wrong_base :
    (importRun cfg50 envOk "category" origRecords true (some resumeCp)).map
        (fun st => st.checkpoints) = Except.ok [⟨"category", 70, [], 70, 70⟩]
    ∧ saveCheckpointData "category" origRecords 70 =
        ⟨"category", 70, origRecords.drop 70, 70, 120⟩
    ∧ origRecords.drop 70 ≠ [] :=
  ⟨rfl, rfl, by decide⟩

/-- Claim C3 (the code at the claimed behaviour's failing input): in a fresh
120-record run with batch size 50, a `disk full` failure of the checkpoint
save after the second batch — whose validation and commit succeeded — is
caught by the batch's error handler: the batch's 50 records are counted in
both `success` and `failed`, an error entry for the batch is appended, and
with `continueOnError` false the checkpoint-save failure aborts the run. -/
theorem checkpoint_save_failure_fails_batch :
    importRun cfg50 envSaveFail "category" origRecords false none =
      Except.error ("disk full",
        ⟨100, 50, [⟨jsBatchIndex 50 50, "disk full", List.range' 50 50⟩], [],
          List.range' 0 100⟩) := rfl

/-- Claim C4 (the code at the claimed behaviour's failing input): a fully
successful fresh run over 50 records with batch size 50 and checkpoint
interval 50 writes no checkpoint at all — the source's guard `i > 0 && i %
interval === 0` tests the batch start index, so the boundary reached at
cumulative count 50 (a positive multiple of the interval) is skipped and the
run records 0 checkpoints instead of `floor(50 / 50) = 1`. -/
theorem checkpoint_cadence_skips_first_boundary :
    importRun cfg50 envOk "category" (List.range 50) false none =
      Except.ok ⟨50, 0, [], [], List.range 50⟩
    ∧ 50 / cfg50.checkpointInterval = 1 :=
  ⟨rfl, by decide⟩

/-- Claim C6 (the code at the claimed behaviour's failing input): in a fresh
non-aborted 120-record run (`continueOnError` true) where only the
checkpoint save at batch start 50 fails, the batch of records 50–99 is
counted in both `success` and `failed`, so the final tallies are
`success = 120` and `failed = 50`: their sum 170 exceeds the 120 records
actually processed. -/
theorem success_failed_sum_exceeds_processed :
    importRun cfgCont envSaveFail "category" origRecords false none =
      Except.ok ⟨120, 50, [⟨jsBatchIndex 50 50, "disk full", List.range' 50 50⟩],
        [⟨"category", 120, [], 120, 120⟩], List.range 120⟩
    ∧ 120 + 50 ≠ 120 :=
  ⟨rfl, by decide⟩

end SanityImport
